import Mathlib

/-!
Verification of the machine-health reasoning engine
(`backend/reasoning_engine.py`, class `MachineHealthReasoner`).

The sensor values that the Python code manipulates as floats are modelled
over `ℚ`; windows are modelled as `List ℚ` (the engine's NaN-filtering is a
no-op in this model, since `ℚ` has no NaN).  Python dicts keyed by the three
parameter names are modelled as functions out of `Param`; a dict in which a
key may be absent is modelled with an `Option` codomain.
-/

namespace MachineHealth

/-- The three monitored parameters (`["temperature", "vibration", "speed"]`). -/
inductive Param
  | temperature
  | vibration
  | speed
deriving DecidableEq, Repr

/-- The fixed iteration order used by every `for param in [...]` loop. -/
def params : List Param := [.temperature, .vibration, .speed]

/-- One parameter's threshold triple from `MachineHealthReasoner.__init__`
(dict keys `"normal"`, `"high"`, `"critical"`). -/
structure Thresholds where
  normalT : ℚ
  highT : ℚ
  criticalT : ℚ
deriving DecidableEq, Repr

/-- The dict `self.thresholds` from `MachineHealthReasoner.__init__`. -/
def thresholds : Param → Thresholds
  | .temperature => ⟨65, 85, 95⟩
  | .vibration => ⟨3, 7, 10⟩
  | .speed => ⟨1150, 1350, 1500⟩

/-- Severity band assigned to a current value (`status` in the code). -/
inductive Status
  | normal
  | warning
  | high
  | critical
deriving DecidableEq, Repr

/-- The `if current >= thresholds["critical"] ... elif ... else` cascade in
`_extract_current_state`. -/
def statusOf (t : Thresholds) (x : ℚ) : Status :=
  if t.criticalT ≤ x then .critical
  else if t.highT ≤ x then .high
  else if t.normalT ≤ x then .warning
  else .normal

/-- The `sensor_data` input: a window per parameter.  A parameter missing from the
Python dict is read through `.get(param, [])`, so a missing key and an empty
window are both the empty list. -/
def SensorData := Param → List ℚ

/-- The last `k` elements of a list (`values[-k:]` in Python). -/
def lastN (k : ℕ) (l : List ℚ) : List ℚ := l.drop (l.length - k)

/-- Arithmetic mean (`np.mean`); `0` on the empty list, which the code never
hits. -/
def mean (l : List ℚ) : ℚ := l.sum / l.length

/-- Python's `abs` on `ℚ`, written so the kernel can evaluate it (proved
equal to Mathlib's `|·|` below). -/
def ratAbs (x : ℚ) : ℚ := if x < 0 then -x else x

/-- Python's binary `min` on `ℚ`, kernel-evaluable (proved equal to
Mathlib's `min` below). -/
def ratMin (a b : ℚ) : ℚ := if a ≤ b then a else b

/-- Python's binary `max` on `ℚ`, kernel-evaluable (proved equal to
Mathlib's `max` below). -/
def ratMax (a b : ℚ) : ℚ := if a ≤ b then b else a

/-- Python's binary `min` on `ℤ`, kernel-evaluable (proved equal to
Mathlib's `min` below). -/
def intMin (a b : ℤ) : ℤ := if a ≤ b then a else b

/-- Value of `np.max` on a nonempty list (junk `0` on the empty list). -/
def listMax : List ℚ → ℚ
  | [] => 0
  | x :: xs => xs.foldl ratMax x

/-- Value of `np.min` on a nonempty list (junk `0` on the empty list). -/
def listMin : List ℚ → ℚ
  | [] => 0
  | x :: xs => xs.foldl ratMin x

/-- One entry of the map built by `_extract_current_state`.  The
`volatility` field (a standard deviation, hence an irrational square root)
is omitted: no verified claim mentions it. -/
structure ParameterState where
  current : ℚ
  recent_avg : ℚ
  recent_max : ℚ
  recent_min : ℚ
  status : Status
deriving DecidableEq, Repr

/-- Function `_extract_current_state`, per parameter.  `none` models the parameter
being skipped (`continue`) and hence absent from the result dict.  Over `ℚ`
the NaN filter keeps every sample, so the second emptiness check coincides
with the first. -/
def extractCurrentState (sd : SensorData) (p : Param) : Option ParameterState :=
  let values := sd p
  if values = [] then none
  else
    let current := values.getLastD 0
    some
      { current := current
        recent_avg := mean (lastN 10 values)
        recent_max := listMax (lastN 10 values)
        recent_min := listMin (lastN 10 values)
        status := statusOf (thresholds p) current }

/-- Trend direction labels from `_analyze_trends`. -/
inductive Direction
  | rising
  | falling
  | stable
  | unknown
deriving DecidableEq, Repr

/-- One entry of the map built by `_analyze_trends`.  The `slope` dict key is
present only in the `len >= 3` branches, hence an `Option`; the templated
`description` string carries no extra information and is omitted. -/
structure TrendResult where
  direction : Direction
  strength : ℚ
  slope : Option ℚ
deriving DecidableEq, Repr

/-- Slope of the degree-one least-squares fit against `x = 0, 1, ..., n-1`,
the value `np.polyfit(np.arange(len(recent)), recent, 1)[0]` computes: the
closed form `(n·Σxy − Σx·Σy) / (n·Σx² − (Σx)²)`. -/
def leastSquaresSlope (ys : List ℚ) : ℚ :=
  let n : ℚ := ys.length
  let xs : List ℚ := (List.range ys.length).map (fun i => (i : ℚ))
  let sx := xs.sum
  let sy := ys.sum
  let sxy := ((xs.zip ys).map (fun q => q.1 * q.2)).sum
  let sxx := (xs.map (fun x => x * x)).sum
  (n * sxy - sx * sy) / (n * sxx - sx * sx)

/-- Function `_analyze_trends`, per parameter.  The Python loop assigns
`trends[param]` on every iteration, so the result is `some _` for every
parameter — the `Option` codomain only keeps the key-presence reading
uniform with `extractCurrentState`. -/
def analyzeTrends (sd : SensorData) (p : Param) : Option TrendResult :=
  let values := sd p
  if values.length < 3 then
    some { direction := .unknown, strength := 0, slope := none }
  else
    let recent := lastN 20 values
    let slope := leastSquaresSlope recent
    if ratAbs slope < 1/10 then
      some { direction := .stable, strength := 0, slope := some slope }
    else if 0 < slope then
      some { direction := .rising, strength := ratMin (ratAbs slope * 10) 10, slope := some slope }
    else
      some { direction := .falling, strength := ratMin (ratAbs slope * 10) 10, slope := some slope }

/-- The `type` values of detected anomalies. -/
inductive AnomalyType
  | spike
  | drop
  | correlated
deriving DecidableEq, Repr

/-- Severity values emitted by `_detect_anomalies`. -/
inductive ASeverity
  | medium
  | high
  | critical
deriving DecidableEq, Repr

/-- One detected anomaly (the `description`/`recommendation` strings carry
no information beyond type, parameter and severity and are omitted). -/
structure Anomaly where
  atype : AnomalyType
  parameter : String
  severity : ASeverity
deriving DecidableEq, Repr

/-- Python display name of a parameter. -/
def paramName : Param → String
  | .temperature => "temperature"
  | .vibration => "vibration"
  | .speed => "speed"

/-- Python's `param.capitalize()`. -/
def paramCapName : Param → String
  | .temperature => "Temperature"
  | .vibration => "Vibration"
  | .speed => "Speed"

/-- Spike/drop detection of `_detect_anomalies` for one parameter: the last
sample of the 5-sample window against the mean of the preceding 4. -/
def spikeDropAnomalies (sd : SensorData) (p : Param) : List Anomaly :=
  let values := sd p
  if values.length < 5 then []
  else
    let recent := lastN 5 values
    let avg := mean recent.dropLast
    let current := recent.getLastD 0
    if avg * (13/10) < current then
      [{ atype := .spike, parameter := paramName p
         severity := if avg * (3/2) < current then .high else .medium }]
    else if current < avg * (7/10) then
      [{ atype := .drop, parameter := paramName p, severity := .medium }]
    else []

/-- The correlated temperature/vibration check of `_detect_anomalies`: both
windows have at least 5 samples and the most recent reading of each is
strictly above the `"high"` threshold.  (Over `ℚ` the NaN filter keeps the
5-sample windows intact, so `temp_clean[-1]` is the last sample.) -/
def correlatedAnomalies (sd : SensorData) : List Anomaly :=
  let tv := sd .temperature
  let vv := sd .vibration
  if tv ≠ [] ∧ vv ≠ [] ∧ 5 ≤ tv.length ∧ 5 ≤ vv.length then
    let tLast := (lastN 5 tv).getLastD 0
    let vLast := (lastN 5 vv).getLastD 0
    if (thresholds .temperature).highT < tLast ∧ (thresholds .vibration).highT < vLast then
      [{ atype := .correlated, parameter := "temperature_vibration", severity := .critical }]
    else []
  else []

/-- Function `_detect_anomalies`.  The `ml_outputs` argument is accepted but never
read by the Python body; it is kept for signature fidelity. -/
def detectAnomalies (sd : SensorData) : List Anomaly :=
  (params.flatMap (spikeDropAnomalies sd)) ++ correlatedAnomalies sd

/-- The `forecast` sub-dict of the LSTM output; the code reads the three
fields through `.get(_, 0)`. -/
structure Forecast where
  temperature : ℚ
  vibration : ℚ
  speed : ℚ
deriving DecidableEq, Repr

/-- Entry `ml_outputs["lstm"]`.  A missing or empty (falsy) `forecast` dict is
modelled as `none`. -/
structure LstmOut where
  forecast : Option Forecast
deriving DecidableEq, Repr

/-- Entry `ml_outputs["random_forest"]`. -/
structure RfOut where
  pred : Option Int
  label : Option String
deriving DecidableEq, Repr

/-- Entry `ml_outputs["isolation_forest"]`. -/
structure IsoOut where
  pred : Option Int
  score : Option ℚ
deriving DecidableEq, Repr

/-- The `ml_outputs` dict; each model entry may be absent from the dict. -/
structure MlOutputs where
  lstm : Option LstmOut
  random_forest : Option RfOut
  isolation_forest : Option IsoOut
deriving DecidableEq, Repr

/-- Random-forest risk labels assigned by `_interpret_ml_outputs`. -/
inductive RfRisk
  | critical
  | warning
  | normal
deriving DecidableEq, Repr

/-- Isolation-forest severities assigned by `_interpret_ml_outputs`. -/
inductive IsoSev
  | critical
  | high
  | medium
  | normal
deriving DecidableEq, Repr

/-- The `interpretation["lstm"]` section.  The formatted `concerns` strings
are modelled by the list of parameters whose forecast is strictly above the
`"high"` threshold, in the order the code appends them. -/
structure LstmInterp where
  forecast_values : Forecast
  temp_change : ℚ
  vib_change : ℚ
  speed_change : ℚ
  concerns : List Param
deriving DecidableEq, Repr

/-- The `interpretation["random_forest"]` section. -/
structure RfInterp where
  risk_level : RfRisk
  prediction : Int
  label : String
deriving DecidableEq, Repr

/-- The `interpretation["isolation_forest"]` section. -/
structure IsoInterp where
  severity : IsoSev
  prediction : Int
  score : Option ℚ
deriving DecidableEq, Repr

/-- Result of `_interpret_ml_outputs`: each section is present only when the
corresponding model output was usable. -/
structure MlInterpretation where
  lstm : Option LstmInterp
  random_forest : Option RfInterp
  isolation_forest : Option IsoInterp
deriving DecidableEq, Repr

/-- Python truthiness of the optional isolation-forest score (`None` and
`0.0` are falsy). -/
def scoreTruthy (o : Option ℚ) : Bool := o.getD 0 ≠ 0

/-- Function `_interpret_ml_outputs`. -/
def interpretMlOutputs (ml : MlOutputs) (cs : Param → Option ParameterState) :
    MlInterpretation :=
  let lstmSection :=
    match (ml.lstm.bind (·.forecast)) with
    | none => none
    | some f =>
      some
        { forecast_values := f
          temp_change := f.temperature -
            (((cs .temperature).map (·.current)).getD f.temperature)
          vib_change := f.vibration -
            (((cs .vibration).map (·.current)).getD f.vibration)
          speed_change := f.speed -
            (((cs .speed).map (·.current)).getD f.speed)
          concerns :=
            (if (thresholds .temperature).highT < f.temperature then [Param.temperature] else [])
            ++ (if (thresholds .vibration).highT < f.vibration then [Param.vibration] else [])
            ++ (if (thresholds .speed).highT < f.speed then [Param.speed] else []) }
  let rfSection :=
    match (ml.random_forest.bind (·.pred)) with
    | none => none
    | some p =>
      let lbl := ((ml.random_forest.bind (·.label)).getD "unknown")
      let risk : RfRisk :=
        if p = 2 ∨ lbl = "critical" then .critical
        else if p = 1 ∨ lbl = "warning" then .warning
        else .normal
      some { risk_level := risk, prediction := p, label := lbl }
  let isoSection :=
    match (ml.isolation_forest.bind (·.pred)) with
    | none => none
    | some p =>
      let score := ml.isolation_forest.bind (·.score)
      let sev : IsoSev :=
        if p = -1 then
          if scoreTruthy score ∧ score.getD 0 < -(1/10) then .critical
          else if scoreTruthy score ∧ score.getD 0 < -(1/20) then .high
          else .medium
        else .normal
      some { severity := sev, prediction := p, score := score }
  { lstm := lstmSection, random_forest := rfSection, isolation_forest := isoSection }

/-- Overall risk levels of `_assess_risk`. -/
inductive RiskLevel
  | normal
  | low
  | medium
  | high
  | critical
deriving DecidableEq, Repr

/-- Per-parameter score contribution of the first loop of `_assess_risk`
(a parameter absent from `current_state` contributes nothing). -/
def stateContribution : Option ParameterState → ℤ
  | some s =>
    match s.status with
    | .critical => 30
    | .high => 20
    | .warning => 10
    | .normal => 0
  | none => 0

/-- Sum of the first loop of `_assess_risk` over `current_state.items()`. -/
def stateScore (cs : Param → Option ParameterState) : ℤ :=
  (params.map (fun p => stateContribution (cs p))).sum

/-- Per-trend contribution of the second loop of `_assess_risk`. -/
def trendContribution : Option TrendResult → ℤ
  | some t => if t.direction = .rising ∧ 5 < t.strength then 15 else 0
  | none => 0

/-- Sum of the second loop of `_assess_risk` over `trends.items()`. -/
def trendScore (tr : Param → Option TrendResult) : ℤ :=
  (params.map (fun p => trendContribution (tr p))).sum

/-- Random-forest contribution of `_assess_risk`
(`rf_interp.get("risk_level")` on a missing section compares unequal to both
labels, contributing 0). -/
def rfScore (mi : MlInterpretation) : ℤ :=
  match mi.random_forest with
  | some r =>
    if r.risk_level = .critical then 25
    else if r.risk_level = .warning then 15
    else 0
  | none => 0

/-- Isolation-forest contribution of `_assess_risk`. -/
def isoScore (mi : MlInterpretation) : ℤ :=
  match mi.isolation_forest with
  | some i =>
    if i.severity = .critical then 20
    else if i.severity = .high ∨ i.severity = .medium then 10
    else 0
  | none => 0

/-- Contribution of the anomaly loop of `_assess_risk`. -/
def anomalyScore (ans : List Anomaly) : ℤ :=
  (ans.map (fun a =>
    if a.severity = .critical then (15 : ℤ)
    else if a.severity = .high then 10
    else 0)).sum

/-- The `risk_score >= 70 ... elif ... else` cascade of `_assess_risk`. -/
def riskLevelOf (score : ℤ) : RiskLevel :=
  if 70 ≤ score then .critical
  else if 50 ≤ score then .high
  else if 30 ≤ score then .medium
  else if 10 ≤ score then .low
  else .normal

/-- Result of `_assess_risk` (the `message`/`factors` strings are omitted;
each factor string corresponds one-to-one to a nonzero contribution). -/
structure RiskAssessment where
  level : RiskLevel
  score : ℤ
deriving DecidableEq, Repr

/-- Function `_assess_risk`: the sequential `risk_score += ...` accumulation, written
as the sum of its loop contributions, capped at 100. -/
def assessRisk (cs : Param → Option ParameterState) (tr : Param → Option TrendResult)
    (mi : MlInterpretation) (ans : List Anomaly) : RiskAssessment :=
  let score :=
    intMin (stateScore cs + trendScore tr + rfScore mi + isoScore mi + anomalyScore ans) 100
  { level := riskLevelOf score, score := score }

/-- Recommendation priorities of `_generate_recommendations`. -/
inductive Priority
  | low
  | medium
  | high
  | immediate
deriving DecidableEq, Repr

/-- One recommendation card; the `action` string identifies the card (the
`reason`/`steps`/`icon`/`category` fields carry no further structure the
claims need). -/
structure Recommendation where
  priority : Priority
  action : String
deriving DecidableEq, Repr

/-- The standing emergency card appended when the risk level is critical. -/
def emergencyCard : Recommendation :=
  { priority := .immediate, action := "Emergency Shutdown Required" }

/-- The preventive card appended when the risk level is normal or low. -/
def routineCard : Recommendation :=
  { priority := .low, action := "Routine Maintenance Schedule" }

/-- Temperature cards of `_generate_recommendations`
(`temp_state.get("status")` is `none` when the parameter is absent). -/
def tempCards : Option Status → List Recommendation
  | some .critical => [{ priority := .immediate, action := "Critical Temperature - Cooling System Failure" }]
  | some .high => [{ priority := .high, action := "High Temperature - Preventive Action Required" }]
  | some .warning => [{ priority := .medium, action := "Elevated Temperature - Monitor Closely" }]
  | _ => []

/-- Vibration cards of `_generate_recommendations`. -/
def vibCards : Option Status → List Recommendation
  | some .critical => [{ priority := .immediate, action := "Critical Vibration - Mechanical Failure Risk" }]
  | some .high => [{ priority := .high, action := "High Vibration - Mechanical Inspection Needed" }]
  | some .warning => [{ priority := .medium, action := "Elevated Vibration - Preventive Check" }]
  | _ => []

/-- Speed cards of `_generate_recommendations`. -/
def speedCards : Option Status → List Recommendation
  | some .critical => [{ priority := .immediate, action := "Critical Speed - Runaway Condition" }]
  | some .high => [{ priority := .high, action := "High Speed - Load Adjustment Required" }]
  | some .warning => [{ priority := .medium, action := "Elevated Speed - Verify Settings" }]
  | _ => []

/-- Trend cards of `_generate_recommendations`: one high-priority card per
rising trend of strength strictly above 7. -/
def trendCards (tr : Param → Option TrendResult) : List Recommendation :=
  params.flatMap (fun p =>
    match tr p with
    | some t =>
      if t.direction = .rising ∧ 7 < t.strength then
        [{ priority := .high
           action := "Rapidly Rising " ++ paramCapName p ++ " - Urgent Attention" }]
      else []
    | none => [])

/-- Function `_generate_recommendations`: the cards are appended in the code's fixed
order — emergency, temperature, vibration, speed, trend, routine. -/
def generateRecommendations (risk : RiskAssessment) (cs : Param → Option ParameterState)
    (tr : Param → Option TrendResult) : List Recommendation :=
  (if risk.level = .critical then [emergencyCard] else [])
  ++ tempCards ((cs .temperature).map (·.status))
  ++ vibCards ((cs .vibration).map (·.status))
  ++ speedCards ((cs .speed).map (·.status))
  ++ trendCards tr
  ++ (if risk.level = .normal ∨ risk.level = .low then [routineCard] else [])

/-- The fields of `analyze`'s result that the claims inspect, wired exactly
as `analyze` wires them. -/
structure AnalysisResult where
  current_state : Param → Option ParameterState
  trends : Param → Option TrendResult
  ml_interpretation : MlInterpretation
  anomalies : List Anomaly
  risk_assessment : RiskAssessment
  recommendations : List Recommendation

/-- The dataflow of `MachineHealthReasoner.analyze`. -/
def analyze (sd : SensorData) (ml : MlOutputs) : AnalysisResult :=
  let cs := extractCurrentState sd
  let tr := analyzeTrends sd
  let mi := interpretMlOutputs ml cs
  let ans := detectAnomalies sd
  let risk := assessRisk cs tr mi ans
  { current_state := cs
    trends := tr
    ml_interpretation := mi
    anomalies := ans
    risk_assessment := risk
    recommendations := generateRecommendations risk cs tr }

/-- The intent categories of `_understand_question_intent`. -/
inductive Intent
  | temperature
  | vibration
  | speed
  | anomaly
  | forecast
  | risk
  | recommendation
  | health
  | trend
  | why
  | comparison
  | correlation
  | comprehensive
deriving DecidableEq, Repr

/-- Whether `w` is a leading segment of `q` (character-wise). -/
def leadMatch : List Char → List Char → Bool
  | [], _ => true
  | _ :: _, [] => false
  | a :: as, b :: bs => a == b && leadMatch as bs

/-- Python's substring containment `w in q` on character lists. -/
def subMem (w : List Char) : List Char → Bool
  | [] => w.isEmpty
  | c :: rest => leadMatch w (c :: rest) || subMem w rest

/-- Python's `word in question_lower` for strings. -/
def hasWord (q w : String) : Bool := subMem w.toList q.toList

/-- Python's `any(word in question_lower for word in [...])`. -/
def matchesAny (q : String) (ws : List String) : Bool := ws.any (hasWord q)

def temperatureWords : List String :=
  ["temperature", "temp", "hot", "heat", "overheat", "cooling", "thermal", "cold", "warm"]

def vibrationWords : List String :=
  ["vibration", "vibrate", "shake", "shaking", "mechanical", "bearing", "alignment", "balance"]

def speedWords : List String :=
  ["speed", "rpm", "fast", "slow", "motor", "rotation", "velocity"]

def anomalyWords : List String :=
  ["anomaly", "abnormal", "unusual", "strange", "weird", "wrong", "issue", "problem", "error"]

def forecastWords : List String :=
  ["forecast", "predict", "future", "next", "will", "going to", "expect", "anticipate"]

def riskWords : List String :=
  ["risk", "failure", "fail", "breakdown", "danger", "safe", "critical", "emergency"]

def recommendationWords : List String :=
  ["recommend", "suggest", "should", "what to do", "action", "fix", "solve", "help", "repair"]

def healthWords : List String :=
  ["health", "status", "condition", "how is", "overall", "summary", "report", "state"]

def trendWords : List String :=
  ["trend", "trending", "pattern", "changing", "increasing", "decreasing", "rising", "falling"]

def whyWords : List String :=
  ["why", "explain", "reason", "cause", "because", "how come"]

def comparisonWords : List String :=
  ["compare", "difference", "vs", "versus", "between", "which"]

def correlationWords : List String :=
  ["correlation", "related", "connection", "relationship", "linked"]

/-- Function `_understand_question_intent`: the `if not question_lower` guard followed
by the twelve-way `elif` cascade, in source order. -/
def understandQuestionIntent (q : String) : Intent :=
  if q = "" then .comprehensive
  else if matchesAny q temperatureWords then .temperature
  else if matchesAny q vibrationWords then .vibration
  else if matchesAny q speedWords then .speed
  else if matchesAny q anomalyWords then .anomaly
  else if matchesAny q forecastWords then .forecast
  else if matchesAny q riskWords then .risk
  else if matchesAny q recommendationWords then .recommendation
  else if matchesAny q healthWords then .health
  else if matchesAny q trendWords then .trend
  else if matchesAny q whyWords then .why
  else if matchesAny q comparisonWords then .comparison
  else if matchesAny q correlationWords then .correlation
  else .comprehensive

/-- The twelve keyword sets in the fixed precedence order the spec names. -/
def intentTable : List (Intent × List String) :=
  [(.temperature, temperatureWords), (.vibration, vibrationWords), (.speed, speedWords),
   (.anomaly, anomalyWords), (.forecast, forecastWords), (.risk, riskWords),
   (.recommendation, recommendationWords), (.health, healthWords), (.trend, trendWords),
   (.why, whyWords), (.comparison, comparisonWords), (.correlation, correlationWords)]

/-- First matching category of an ordered keyword table — the spec's
description of intent classification. -/
def firstIntent (q : String) : List (Intent × List String) → Intent
  | [] => .comprehensive
  | (i, ws) :: rest => if matchesAny q ws then i else firstIntent q rest

/-- Urgency order on priorities (immediate > high > medium > low). -/
def urgencyRank : Priority → ℕ
  | .immediate => 3
  | .high => 2
  | .medium => 1
  | .low => 0

/-- Whether a sequence of urgency ranks is non-increasing — the ordering the
specification asserts for every recommendation list. -/
def sortedDescBool : List ℕ → Bool
  | [] => true
  | [_] => true
  | a :: b :: rest => decide (b ≤ a) && sortedDescBool (b :: rest)

/-- Severity order on parameter bands (normal < warning < high < critical). -/
def sevRank : Status → ℕ
  | .normal => 0
  | .warning => 1
  | .high => 2
  | .critical => 3

/-- Sensor input with a high-band temperature and a critical-band vibration:
the inputs that break the claimed priority ordering. -/
def c3Sd : SensorData := fun p =>
  match p with
  | .temperature => [90, 90, 90]
  | .vibration => [12, 12, 12]
  | .speed => []

/-- An `ml_outputs` value with every model entry absent. -/
def mlNone : MlOutputs := ⟨none, none, none⟩

/-- An empty `current_state` map. -/
def csNone : Param → Option ParameterState := fun _ => none

/-- An empty `trends` map. -/
def trNone : Param → Option TrendResult := fun _ => none

/-- The all-empty sensor input. -/
def emptySd : SensorData := fun _ => []

/-- A temperature window whose least-squares slope is exactly 1/20. -/
def c5Sd : SensorData := fun p =>
  match p with
  | .temperature => [0, 1/20, 1/10]
  | _ => []

/-- Sensor input in which temperature and vibration sit exactly on their
`high` lower bounds. -/
def c6Sd : SensorData := fun p =>
  match p with
  | .temperature => [85, 85, 85, 85, 85]
  | .vibration => [7, 7, 7, 7, 7]
  | .speed => []

/-- Sensor input in which temperature and vibration are strictly above
their `high` thresholds. -/
def c6wSd : SensorData := fun p =>
  match p with
  | .temperature => [86, 86, 86, 86, 86]
  | .vibration => [8, 8, 8, 8, 8]
  | .speed => []

/-- Sensor input with a single high-band parameter (temperature 86). -/
def c10Sd : SensorData := fun p =>
  match p with
  | .temperature => [86, 86, 86]
  | _ => []

/-- A `current_state` map holding temperature in the warning band. -/
def csWarn : Param → Option ParameterState := fun p =>
  match p with
  | .temperature => some { current := 70, recent_avg := 70, recent_max := 70,
                           recent_min := 70, status := .warning }
  | _ => none

/-- State map `csWarn` with temperature moved to the high band, all else equal. -/
def csHigh : Param → Option ParameterState := fun p =>
  match p with
  | .temperature => some { current := 70, recent_avg := 70, recent_max := 70,
                           recent_min := 70, status := .high }
  | _ => none

/-- An `MlInterpretation` with every section absent. -/
def miNone : MlInterpretation := ⟨none, none, none⟩

/-- The per-parameter points exactly as the specification words them:
+30/+20/+10 for each parameter whose severity status is
critical/high/warning, normal adds 0. -/
def specParamPoints (cs : Param → Option ParameterState) : ℤ :=
  (params.map (fun p =>
    if (cs p).map (·.status) = some .critical then (30 : ℤ)
    else if (cs p).map (·.status) = some .high then 20
    else if (cs p).map (·.status) = some .warning then 10
    else 0)).sum

/-- The risk score exactly as the specification words it: the additive sum
of all the listed contributions (before the cap at 100). -/
def specRiskScore (cs : Param → Option ParameterState) (tr : Param → Option TrendResult)
    (mi : MlInterpretation) (ans : List Anomaly) : ℤ :=
  specParamPoints cs
  + (params.map (fun p =>
      if (tr p).map (·.direction) = some .rising ∧ 5 < ((tr p).map (·.strength)).getD 0
      then (15 : ℤ) else 0)).sum
  + (if (mi.random_forest).map (·.risk_level) = some .critical then (25 : ℤ)
     else if (mi.random_forest).map (·.risk_level) = some .warning then 15 else 0)
  + (if (mi.isolation_forest).map (·.severity) = some .critical then (20 : ℤ)
     else if (mi.isolation_forest).map (·.severity) = some .high
          ∨ (mi.isolation_forest).map (·.severity) = some .medium then 10 else 0)
  + (ans.map (fun a =>
      if a.severity = .critical then (15 : ℤ)
      else if a.severity = .high then 10 else 0)).sum

/-- Function `ratAbs` is Mathlib's absolute value. -/
theorem ratAbs_eq_abs (x : ℚ) : ratAbs x = |x| := by
  rw [ratAbs]
  split_ifs with h
  · exact (abs_of_neg h).symm
  · exact (abs_of_nonneg (not_lt.mp h)).symm

/-- Function `ratMin` is Mathlib's `min`. -/
theorem ratMin_eq_min (a b : ℚ) : ratMin a b = min a b := by
  rw [ratMin, min_def]

/-- Function `ratMax` is Mathlib's `max`. -/
theorem ratMax_eq_max (a b : ℚ) : ratMax a b = max a b := by
  rw [ratMax, max_def]

/-- Function `intMin` is Mathlib's `min`. -/
theorem intMin_eq_min (a b : ℤ) : intMin a b = min a b := by
  rw [intMin, min_def]

/-- C1.  For every input to the risk assessor, the risk score equals the
additive sum of: +30/+20/+10 per parameter in the critical/high/warning
band, +15 per rising trend of strength > 5, +25/+15 for a critical/warning
classification risk level, +20/+10 for a critical/high-or-medium model
anomaly severity, and +15/+10 per detected anomaly of critical/high
severity, clamped above at 100; and the risk level is critical/high/
medium/low/normal according to the thresholds 70/50/30/10 on the clamped
score. -/
theorem risk_score_additive_formula (cs : Param → Option ParameterState)
    (tr : Param → Option TrendResult) (mi : MlInterpretation) (ans : List Anomaly) :
    (assessRisk cs tr mi ans).score = min (specRiskScore cs tr mi ans) 100
    ∧ (assessRisk cs tr mi ans).level =
      (if 70 ≤ (assessRisk cs tr mi ans).score then .critical
       else if 50 ≤ (assessRisk cs tr mi ans).score then .high
       else if 30 ≤ (assessRisk cs tr mi ans).score then .medium
       else if 10 ≤ (assessRisk cs tr mi ans).score then .low
       else .normal) := by
  have hstate : ∀ o : Option ParameterState,
      stateContribution o =
        (if o.map (·.status) = some .critical then (30 : ℤ)
         else if o.map (·.status) = some .high then 20
         else if o.map (·.status) = some .warning then 10
         else 0) := by
    intro o
    rcases o with _ | s
    · simp [stateContribution]
    · rcases s with ⟨c, ra, rx, rn, st⟩
      cases st <;> simp [stateContribution]
  have htrend : ∀ o : Option TrendResult,
      trendContribution o =
        (if o.map (·.direction) = some .rising ∧ 5 < (o.map (·.strength)).getD 0
         then (15 : ℤ) else 0) := by
    intro o
    rcases o with _ | t
    · simp [trendContribution]
    · simp [trendContribution]
  have hrf : rfScore mi =
      (if (mi.random_forest).map (·.risk_level) = some .critical then (25 : ℤ)
       else if (mi.random_forest).map (·.risk_level) = some .warning then 15 else 0) := by
    rcases h : mi.random_forest with _ | r
    · simp [rfScore, h]
    · rcases r with ⟨rl, pr, lb⟩
      cases rl <;> simp [rfScore, h]
  have hiso : isoScore mi =
      (if (mi.isolation_forest).map (·.severity) = some .critical then (20 : ℤ)
       else if (mi.isolation_forest).map (·.severity) = some .high
            ∨ (mi.isolation_forest).map (·.severity) = some .medium then 10 else 0) := by
    rcases h : mi.isolation_forest with _ | i
    · simp [isoScore, h]
    · rcases i with ⟨sv, pr, sc⟩
      cases sv <;> simp [isoScore, h]
  have hsum : stateScore cs + trendScore tr + rfScore mi + isoScore mi + anomalyScore ans
      = specRiskScore cs tr mi ans := by
    simp only [stateScore, trendScore, specRiskScore, specParamPoints, anomalyScore,
      hstate, htrend, hrf, hiso]
  constructor
  · show intMin _ 100 = min _ 100
    rw [intMin_eq_min, hsum]
  · rfl

/-- C2 counterexample.  On a window whose current temperature is exactly 85,
state extraction assigns severity band `high`, not `critical` (the critical
lower bound in the configuration is 95). -/
theorem temp_85_not_critical :
    ((extractCurrentState
        (fun p => match p with | .temperature => [85] | _ => []) .temperature).map
      (·.status)) = some .high
    ∧ Status.high ≠ Status.critical := by
  constructor
  · rfl
  · decide

/-- C2 (amended).  A current value exactly equal to a severity band's lower
bound classifies into that band and not the band below (at-or-above
semantics); in particular a temperature of exactly 85 classifies as `high`
(85 is the high band's lower bound) and a temperature of exactly 95 — the
critical lower bound — classifies as `critical`. -/
theorem band_lower_bound_at_or_above :
    (∀ p x,
      ((thresholds p).criticalT ≤ x → statusOf (thresholds p) x = .critical)
      ∧ ((thresholds p).highT ≤ x → x < (thresholds p).criticalT →
          statusOf (thresholds p) x = .high)
      ∧ ((thresholds p).normalT ≤ x → x < (thresholds p).highT →
          statusOf (thresholds p) x = .warning)
      ∧ (x < (thresholds p).normalT → statusOf (thresholds p) x = .normal))
    ∧ ((extractCurrentState
          (fun p => match p with | .temperature => [85] | _ => []) .temperature).map
        (·.status)) = some .high
    ∧ statusOf (thresholds .temperature) 95 = .critical := by
  refine ⟨fun p x => ⟨?_, ?_, ?_, ?_⟩, rfl, by decide⟩
  · intro h1
    cases p <;> simp only [statusOf, thresholds] at * <;> rw [if_pos h1]
  · intro h1 h2
    cases p <;> simp only [statusOf, thresholds] at * <;>
      rw [if_neg (by linarith), if_pos h1]
  · intro h1 h2
    cases p <;> simp only [statusOf, thresholds] at * <;>
      rw [if_neg (by linarith), if_neg (by linarith), if_pos h1]
  · intro h1
    cases p <;> simp only [statusOf, thresholds] at * <;>
      rw [if_neg (by linarith), if_neg (by linarith), if_neg (by linarith)]

/-- Witness for C2 (amended): the high lower bound 85 classifies as `high`. -/
theorem band_lower_bound_at_or_above_witness :
    statusOf (thresholds .temperature) 85 = .high :=
  (band_lower_bound_at_or_above.1 .temperature 85).2.1
    (by norm_num [thresholds]) (by norm_num [thresholds])

/-- Evaluation helper: temperature state on the C3 input. -/
theorem c3_state_temp : extractCurrentState c3Sd .temperature
    = some { current := 90, recent_avg := 90, recent_max := 90, recent_min := 90,
             status := .high } := by
  norm_num [extractCurrentState, c3Sd, mean, lastN, listMax, listMin, ratMax, ratMin,
    statusOf, thresholds]
  exact fun h => absurd h (by simp)

/-- Evaluation helper: vibration state on the C3 input. -/
theorem c3_state_vib : extractCurrentState c3Sd .vibration
    = some { current := 12, recent_avg := 12, recent_max := 12, recent_min := 12,
             status := .critical } := by
  norm_num [extractCurrentState, c3Sd, mean, lastN, listMax, listMin, ratMax, ratMin,
    statusOf, thresholds]
  exact fun h => absurd h (by simp)

/-- Evaluation helper: temperature trend on the C3 input. -/
theorem c3_trend_temp : analyzeTrends c3Sd .temperature
    = some { direction := .stable, strength := 0, slope := some 0 } := by
  norm_num [analyzeTrends, c3Sd, lastN, leastSquaresSlope, ratAbs, List.range_succ]

/-- Evaluation helper: vibration trend on the C3 input. -/
theorem c3_trend_vib : analyzeTrends c3Sd .vibration
    = some { direction := .stable, strength := 0, slope := some 0 } := by
  norm_num [analyzeTrends, c3Sd, lastN, leastSquaresSlope, ratAbs, List.range_succ]

/-- Evaluation helper: risk assessment on the C3 input (20 + 30 = 50, level
high). -/
theorem c3_risk : (analyze c3Sd mlNone).risk_assessment
    = { level := .high, score := 50 } := by
  have hmi : interpretMlOutputs mlNone (extractCurrentState c3Sd) = miNone := by decide
  have han : detectAnomalies c3Sd = [] := by decide
  have htrS : analyzeTrends c3Sd .speed
      = some { direction := .unknown, strength := 0, slope := none } := by decide
  have hcsS : extractCurrentState c3Sd .speed = none := by decide
  show assessRisk _ _ _ _ = _
  rw [hmi, han]
  simp only [assessRisk, stateScore, trendScore, params, List.map_cons, List.map_nil,
    List.sum_cons, List.sum_nil, c3_state_temp, c3_state_vib, hcsS, c3_trend_temp,
    c3_trend_vib, htrS, stateContribution, trendContribution, rfScore, isoScore,
    anomalyScore, miNone, riskLevelOf, intMin]
  norm_num

/-- Evaluation helper: recommendation list on the C3 input. -/
theorem c3_recommendations : (analyze c3Sd mlNone).recommendations =
    [{ priority := .high, action := "High Temperature - Preventive Action Required" },
     { priority := .immediate, action := "Critical Vibration - Mechanical Failure Risk" }] := by
  have hcsS : extractCurrentState c3Sd .speed = none := by decide
  have htrS : analyzeTrends c3Sd .speed
      = some { direction := .unknown, strength := 0, slope := none } := by decide
  show generateRecommendations _ _ _ = _
  rw [show assessRisk (extractCurrentState c3Sd) (analyzeTrends c3Sd)
      (interpretMlOutputs mlNone (extractCurrentState c3Sd)) (detectAnomalies c3Sd)
      = ⟨.high, 50⟩ from c3_risk]
  simp only [generateRecommendations, c3_state_temp, c3_state_vib, hcsS, trendCards,
    params, c3_trend_temp, c3_trend_vib, htrS, List.flatMap_cons, List.flatMap_nil,
    tempCards, vibCards, speedCards, Option.map_some]
  decide

/-- C3 counterexample.  On temperature window `[90, 90, 90]` (band `high`)
and vibration window `[12, 12, 12]` (band `critical`), the full pipeline
emits the high-priority temperature card before the immediate-priority
vibration card, so the priority sequence is not non-increasing in
urgency. -/
theorem recommendation_priorities_not_sorted :
    ((analyze c3Sd mlNone).recommendations.map (·.priority)) = [.high, .immediate]
    ∧ sortedDescBool
        ((analyze c3Sd mlNone).recommendations.map (fun r => urgencyRank r.priority))
      = false := by
  rw [c3_recommendations]
  constructor
  · rfl
  · rfl

/-- C3 (amended).  The recommendation list follows a fixed emission order
rather than being sorted by priority: when the risk level is critical the
list begins with the immediate emergency card, and when the risk level is
normal or low its last element is the low-priority routine card; an
immediate-priority parameter card may appear after a high- or
medium-priority card of an earlier parameter. -/
theorem recommendation_emission_order (risk : RiskAssessment)
    (cs : Param → Option ParameterState) (tr : Param → Option TrendResult) :
    (risk.level = .critical →
      (generateRecommendations risk cs tr).head? = some emergencyCard)
    ∧ ((risk.level = .normal ∨ risk.level = .low) →
        (generateRecommendations risk cs tr).getLast? = some routineCard) := by
  constructor
  · intro h
    simp [generateRecommendations, h]
  · intro h
    have hnc : ¬ risk.level = .critical := by
      rcases h with h | h <;> simp [h]
    rw [generateRecommendations, if_pos h, if_neg hnc]
    simp only [List.nil_append]
    exact List.getLast?_concat _

/-- Witness for C3 (amended): with a critical risk assessment the emergency
card comes first. -/
theorem recommendation_emission_order_witness :
    (generateRecommendations ⟨.critical, 100⟩ csNone trNone).head? = some emergencyCard :=
  (recommendation_emission_order ⟨.critical, 100⟩ csNone trNone).1 rfl

/-- C4 counterexample.  With every window empty, the parameter is omitted
from the ParameterState map, but it still appears as a key of the
TrendResult map (bound to `direction = unknown, strength = 0`). -/
theorem empty_window_trend_key_present :
    extractCurrentState emptySd .temperature = none
    ∧ analyzeTrends emptySd .temperature ≠ none
    ∧ analyzeTrends emptySd .temperature
        = some { direction := .unknown, strength := 0, slope := none } := by
  refine ⟨rfl, ?_, rfl⟩
  decide

/-- C4 (amended).  When a parameter's window is missing or empty, that
parameter is omitted from the ParameterState map, while the TrendResult map
still contains it, mapped to `direction = unknown, strength = 0`. -/
theorem empty_window_state_omitted_trend_unknown (sd : SensorData) (p : Param)
    (h : sd p = []) :
    extractCurrentState sd p = none
    ∧ analyzeTrends sd p = some { direction := .unknown, strength := 0, slope := none } := by
  constructor
  · simp [extractCurrentState, h]
  · simp [analyzeTrends, h]

/-- Witness for C4 (amended), at the all-empty input. -/
theorem empty_window_state_omitted_trend_unknown_witness :
    extractCurrentState emptySd .temperature = none
    ∧ analyzeTrends emptySd .temperature
        = some { direction := .unknown, strength := 0, slope := none } :=
  empty_window_state_omitted_trend_unknown emptySd .temperature rfl

/-- C5 counterexample.  On the window `[0, 0.05, 0.1]` the slope is 0.05,
the direction is `stable`, and the returned strength is 0 — not
`min(|slope| * 10, 10) = 0.5` as the claim asserts for every length-≥3
trend result. -/
theorem stable_strength_not_slope_formula :
    analyzeTrends c5Sd .temperature
      = some { direction := .stable, strength := 0, slope := some (1/20) }
    ∧ min (|leastSquaresSlope (lastN 20 (c5Sd .temperature))| * 10) 10 = 1/2
    ∧ ((analyzeTrends c5Sd .temperature).map (·.strength)) ≠
        some (min (|leastSquaresSlope (lastN 20 (c5Sd .temperature))| * 10) 10) := by
  have hs : leastSquaresSlope (lastN 20 (c5Sd .temperature)) = 1/20 := by
    norm_num [c5Sd, lastN, leastSquaresSlope, List.range_succ]
  have hT : analyzeTrends c5Sd .temperature
      = some { direction := .stable, strength := 0, slope := some (1/20) } := by
    norm_num [analyzeTrends, c5Sd, lastN, leastSquaresSlope, ratAbs, List.range_succ]
  refine ⟨hT, ?_, ?_⟩
  · rw [hs, abs_of_nonneg (by norm_num : (0 : ℚ) ≤ 1/20), min_def]
    norm_num
  · rw [hT, hs, abs_of_nonneg (by norm_num : (0 : ℚ) ≤ 1/20), min_def]
    simp only [Option.map_some, ne_eq, Option.some.injEq]
    norm_num

/-- C5 (amended).  A window of fewer than 3 samples yields
`direction = unknown, strength = 0`; with 3 or more samples the result is
never `unknown`: the least-squares slope over the last min(20, length)
samples gives `stable` with strength 0 when |slope| < 0.1, `rising` with
strength min(|slope|·10, 10) when slope > 0, and `falling` with the same
strength when slope < 0. -/
theorem trend_direction_strength_spec (sd : SensorData) (p : Param) :
    ((sd p).length < 3 →
      analyzeTrends sd p = some { direction := .unknown, strength := 0, slope := none })
    ∧ (3 ≤ (sd p).length →
        ∀ t, analyzeTrends sd p = some t →
          t.direction ≠ .unknown
          ∧ (|leastSquaresSlope (lastN 20 (sd p))| < 1/10 →
              t.direction = .stable ∧ t.strength = 0)
          ∧ (¬ |leastSquaresSlope (lastN 20 (sd p))| < 1/10 →
              0 < leastSquaresSlope (lastN 20 (sd p)) →
              t.direction = .rising
              ∧ t.strength = min (|leastSquaresSlope (lastN 20 (sd p))| * 10) 10)
          ∧ (¬ |leastSquaresSlope (lastN 20 (sd p))| < 1/10 →
              leastSquaresSlope (lastN 20 (sd p)) < 0 →
              t.direction = .falling
              ∧ t.strength = min (|leastSquaresSlope (lastN 20 (sd p))| * 10) 10)) := by
  constructor
  · intro h
    simp [analyzeTrends, h]
  · intro h t ht
    have hlt : ¬ (sd p).length < 3 := not_lt.mpr h
    rw [← ratAbs_eq_abs, ← ratMin_eq_min]
    rw [analyzeTrends] at ht
    simp only [hlt, if_false] at ht
    split_ifs at ht with h1 h2 <;>
      simp only [Option.some.injEq] at ht <;> subst ht
    · exact ⟨by simp, fun _ => ⟨rfl, rfl⟩,
        fun hc _ => absurd h1 hc, fun hc _ => absurd h1 hc⟩
    · exact ⟨by simp, fun hc => absurd hc h1,
        fun _ _ => ⟨rfl, rfl⟩, fun _ hneg => absurd h2 (asymm hneg)⟩
    · refine ⟨by simp, fun hc => absurd hc h1, fun _ hpos => absurd hpos h2, ?_⟩
      exact fun _ _ => ⟨rfl, rfl⟩

/-- Witness for C5 (amended), at a one-sample window. -/
theorem trend_direction_strength_spec_witness :
    analyzeTrends (fun _ => [(5 : ℚ)]) .temperature
      = some { direction := .unknown, strength := 0, slope := none } :=
  (trend_direction_strength_spec (fun _ => [(5 : ℚ)]) .temperature).1 (by decide)

/-- Dropping fewer elements than the list's length leaves the last element
(and hence `getLastD`) unchanged. -/
theorem getLastD_drop (l : List ℚ) (n : ℕ) (h : n < l.length) (d : ℚ) :
    (l.drop n).getLastD d = l.getLastD d := by
  induction l generalizing n with
  | nil => simp at h
  | cons x xs ih =>
    cases n with
    | zero => simp
    | succ m =>
      have hm : m < xs.length := by simpa using h
      rw [List.drop_succ_cons, ih m hm]
      have hne : xs ≠ [] :=
        List.ne_nil_of_length_pos (Nat.lt_of_le_of_lt (Nat.zero_le m) hm)
      rw [List.getLastD_cons, List.getLastD_eq_getLast?, List.getLastD_eq_getLast?]
      obtain ⟨a, ha⟩ := Option.isSome_iff_exists.mp (List.getLast?_isSome.mpr hne)
      rw [ha]
      rfl

/-- C6 counterexample.  With temperature and vibration windows of 5 samples
sitting exactly on their high lower bounds (85 and 7), both parameters are
in the `high` band under the at-or-above semantics, yet the anomaly
detector emits nothing: the correlated check uses strict `>` against the
high thresholds. -/
theorem boundary_no_correlated_anomaly :
    statusOf (thresholds .temperature) ((c6Sd .temperature).getLastD 0) = .high
    ∧ statusOf (thresholds .vibration) ((c6Sd .vibration).getLastD 0) = .high
    ∧ 5 ≤ (c6Sd .temperature).length ∧ 5 ≤ (c6Sd .vibration).length
    ∧ detectAnomalies c6Sd = [] := by
  refine ⟨by decide, by decide, by decide, by decide, ?_⟩
  norm_num [detectAnomalies, spikeDropAnomalies, correlatedAnomalies, c6Sd, params,
    lastN, mean, thresholds, List.getLastD]

/-- C6 (amended).  Whenever the temperature and vibration windows each have
at least 5 samples and the most recent reading of each is simultaneously
strictly above the high threshold (temperature > 85 and vibration > 7.0),
the anomaly detector emits an anomaly of type `correlated` with severity
`critical`. -/
theorem correlated_anomaly_strict (sd : SensorData)
    (ht : 5 ≤ (sd .temperature).length) (hv : 5 ≤ (sd .vibration).length)
    (htemp : (thresholds .temperature).highT < (sd .temperature).getLastD 0)
    (hvib : (thresholds .vibration).highT < (sd .vibration).getLastD 0) :
    ({ atype := .correlated, parameter := "temperature_vibration",
       severity := .critical } : Anomaly) ∈ detectAnomalies sd := by
  have htne : sd .temperature ≠ [] := by
    intro he
    rw [he] at ht
    simp at ht
  have hvne : sd .vibration ≠ [] := by
    intro he
    rw [he] at hv
    simp at hv
  have h1 : (lastN 5 (sd .temperature)).getLastD 0 = (sd .temperature).getLastD 0 := by
    apply getLastD_drop
    omega
  have h2 : (lastN 5 (sd .vibration)).getLastD 0 = (sd .vibration).getLastD 0 := by
    apply getLastD_drop
    omega
  rw [detectAnomalies]
  apply List.mem_append_right
  rw [correlatedAnomalies]
  simp only [h1, h2]
  rw [if_pos ⟨htne, hvne, ht, hv⟩, if_pos ⟨htemp, hvib⟩]
  exact List.mem_singleton.mpr rfl

/-- Witness for C6 (amended): windows strictly above the thresholds. -/
theorem correlated_anomaly_strict_witness :
    ({ atype := .correlated, parameter := "temperature_vibration",
       severity := .critical } : Anomaly) ∈ detectAnomalies c6wSd :=
  correlated_anomaly_strict c6wSd (by decide) (by decide) (by decide) (by decide)

/-- C7.  Intent classification tests the twelve keyword sets in the fixed
source order, returning the first matching category; it returns
`comprehensive` for an empty or unmatched question; and
"why is vibration high?" classifies as `vibration`, not `why`. -/
theorem question_intent_first_match :
    (∀ q, understandQuestionIntent q =
      (if q = "" then .comprehensive else firstIntent q intentTable))
    ∧ understandQuestionIntent "" = .comprehensive
    ∧ (∀ q, (∀ pr ∈ intentTable, matchesAny q pr.2 = false) →
        understandQuestionIntent q = .comprehensive)
    ∧ understandQuestionIntent "why is vibration high?" = .vibration := by
  refine ⟨fun q => rfl, rfl, ?_, by decide⟩
  intro q h
  have h1 := h (.temperature, temperatureWords) (by simp [intentTable])
  have h2 := h (.vibration, vibrationWords) (by simp [intentTable])
  have h3 := h (.speed, speedWords) (by simp [intentTable])
  have h4 := h (.anomaly, anomalyWords) (by simp [intentTable])
  have h5 := h (.forecast, forecastWords) (by simp [intentTable])
  have h6 := h (.risk, riskWords) (by simp [intentTable])
  have h7 := h (.recommendation, recommendationWords) (by simp [intentTable])
  have h8 := h (.health, healthWords) (by simp [intentTable])
  have h9 := h (.trend, trendWords) (by simp [intentTable])
  have h10 := h (.why, whyWords) (by simp [intentTable])
  have h11 := h (.comparison, comparisonWords) (by simp [intentTable])
  have h12 := h (.correlation, correlationWords) (by simp [intentTable])
  simp only at h1 h2 h3 h4 h5 h6 h7 h8 h9 h10 h11 h12
  by_cases hq : q = "" <;>
    simp [understandQuestionIntent, hq, h1, h2, h3, h4, h5, h6, h7, h8, h9, h10, h11, h12]

/-- Witness for C7: an unmatched question routes to `comprehensive`. -/
theorem question_intent_first_match_witness :
    understandQuestionIntent "zzz" = .comprehensive :=
  question_intent_first_match.2.2.1 "zzz" (by decide)

/-- C8.  Holding the trends, model interpretation, anomalies and every
other parameter's state fixed, replacing one parameter's severity status by
a strictly more severe one never decreases the risk score; the score is
never negative and is capped at 100. -/
theorem risk_score_monotone_in_severity
    (cs cs' : Param → Option ParameterState) (tr : Param → Option TrendResult)
    (mi : MlInterpretation) (ans : List Anomaly) (p : Param) (s s' : ParameterState)
    (hothers : ∀ q, q ≠ p → cs' q = cs q)
    (hp : cs p = some s) (hp' : cs' p = some s')
    (hsev : sevRank s.status < sevRank s'.status) :
    (assessRisk cs tr mi ans).score ≤ (assessRisk cs' tr mi ans).score
    ∧ 0 ≤ (assessRisk cs tr mi ans).score
    ∧ (assessRisk cs tr mi ans).score ≤ 100 := by
  have hc0 : ∀ o, 0 ≤ stateContribution o := by
    intro o
    rcases o with _ | s0
    · simp [stateContribution]
    · rcases s0 with ⟨c1, a1, m1, n1, st⟩
      cases st <;> simp [stateContribution]
  have ht0 : ∀ o, 0 ≤ trendContribution o := by
    intro o
    rcases o with _ | t0
    · simp [trendContribution]
    · simp only [trendContribution]
      split <;> norm_num
  have hrf0 : 0 ≤ rfScore mi := by
    cases hm : mi.random_forest with
    | none => simp [rfScore, hm]
    | some r =>
      simp only [rfScore, hm]
      split_ifs <;> norm_num
  have hiso0 : 0 ≤ isoScore mi := by
    cases hm : mi.isolation_forest with
    | none => simp [isoScore, hm]
    | some i =>
      simp only [isoScore, hm]
      split_ifs <;> norm_num
  have han0 : 0 ≤ anomalyScore ans := by
    rw [anomalyScore]
    apply List.sum_nonneg
    intro x hx
    simp only [List.mem_map] at hx
    obtain ⟨a, _, rfl⟩ := hx
    split_ifs <;> norm_num
  have hpoint : ∀ q, stateContribution (cs q) ≤ stateContribution (cs' q) := by
    intro q
    by_cases hq : q = p
    · subst hq
      rw [hp, hp']
      rcases s with ⟨c1, a1, m1, n1, st1⟩
      rcases s' with ⟨c2, a2, m2, n2, st2⟩
      simp only at hsev
      cases st1 <;> cases st2 <;>
        simp_all [stateContribution, sevRank]
    · rw [hothers q hq]
  have hmono : stateScore cs ≤ stateScore cs' := by
    have k1 := hpoint .temperature
    have k2 := hpoint .vibration
    have k3 := hpoint .speed
    simp only [stateScore, params, List.map_cons, List.map_nil, List.sum_cons,
      List.sum_nil]
    linarith
  have hss0 : 0 ≤ stateScore cs := by
    have k1 := hc0 (cs .temperature)
    have k2 := hc0 (cs .vibration)
    have k3 := hc0 (cs .speed)
    simp only [stateScore, params, List.map_cons, List.map_nil, List.sum_cons,
      List.sum_nil]
    linarith
  have hts0 : 0 ≤ trendScore tr := by
    have k1 := ht0 (tr .temperature)
    have k2 := ht0 (tr .vibration)
    have k3 := ht0 (tr .speed)
    simp only [trendScore, params, List.map_cons, List.map_nil, List.sum_cons,
      List.sum_nil]
    linarith
  refine ⟨?_, ?_, ?_⟩
  · show intMin _ 100 ≤ intMin _ 100
    rw [intMin_eq_min, intMin_eq_min]
    exact min_le_min (by linarith) le_rfl
  · show (0 : ℤ) ≤ intMin _ 100
    rw [intMin_eq_min]
    exact le_min (by linarith) (by norm_num)
  · show intMin _ 100 ≤ 100
    rw [intMin_eq_min]
    exact min_le_right _ _

/-- Witness for C8: moving temperature from `warning` to `high` with all
else fixed. -/
theorem risk_score_monotone_in_severity_witness :
    (assessRisk csWarn trNone miNone []).score ≤ (assessRisk csHigh trNone miNone []).score
    ∧ 0 ≤ (assessRisk csWarn trNone miNone []).score
    ∧ (assessRisk csWarn trNone miNone []).score ≤ 100 :=
  risk_score_monotone_in_severity csWarn csHigh trNone miNone [] .temperature
    { current := 70, recent_avg := 70, recent_max := 70, recent_min := 70,
      status := .warning }
    { current := 70, recent_avg := 70, recent_max := 70, recent_min := 70,
      status := .high }
    (by
      intro q hq
      cases q with
      | temperature => exact absurd rfl hq
      | vibration => rfl
      | speed => rfl)
    rfl rfl (by decide)

/-- C9.  If one of the three external model outputs is absent (the entry is
missing or lacks its prediction/forecast field), the interpreter omits that
model's section from the ModelInterpretation, and the risk assessor adds
exactly zero risk contribution for that model. -/
theorem missing_model_zero_contribution (ml : MlOutputs)
    (cs : Param → Option ParameterState) :
    ((ml.lstm.bind (·.forecast)) = none → (interpretMlOutputs ml cs).lstm = none)
    ∧ ((ml.random_forest.bind (·.pred)) = none →
        (interpretMlOutputs ml cs).random_forest = none
        ∧ rfScore (interpretMlOutputs ml cs) = 0)
    ∧ ((ml.isolation_forest.bind (·.pred)) = none →
        (interpretMlOutputs ml cs).isolation_forest = none
        ∧ isoScore (interpretMlOutputs ml cs) = 0) := by
  refine ⟨?_, ?_, ?_⟩
  · intro h
    simp [interpretMlOutputs, h]
  · intro h
    have h2 : (interpretMlOutputs ml cs).random_forest = none := by
      simp [interpretMlOutputs, h]
    exact ⟨h2, by simp [rfScore, h2]⟩
  · intro h
    have h2 : (interpretMlOutputs ml cs).isolation_forest = none := by
      simp [interpretMlOutputs, h]
    exact ⟨h2, by simp [isoScore, h2]⟩

/-- Witness for C9: all three model entries absent. -/
theorem missing_model_zero_contribution_witness :
    (interpretMlOutputs mlNone csNone).lstm = none
    ∧ (interpretMlOutputs mlNone csNone).random_forest = none
    ∧ rfScore (interpretMlOutputs mlNone csNone) = 0
    ∧ (interpretMlOutputs mlNone csNone).isolation_forest = none
    ∧ isoScore (interpretMlOutputs mlNone csNone) = 0 :=
  ⟨(missing_model_zero_contribution mlNone csNone).1 rfl,
   ((missing_model_zero_contribution mlNone csNone).2.1 rfl).1,
   ((missing_model_zero_contribution mlNone csNone).2.1 rfl).2,
   ((missing_model_zero_contribution mlNone csNone).2.2 rfl).1,
   ((missing_model_zero_contribution mlNone csNone).2.2 rfl).2⟩

/-- No temperature card is low-priority. -/
theorem mem_tempCards_priority (st : Option Status) (r : Recommendation)
    (h : r ∈ tempCards st) : r.priority ≠ .low := by
  rcases st with _ | s
  · simp [tempCards] at h
  · cases s <;> simp [tempCards] at h <;> subst h <;> simp

/-- No vibration card is low-priority. -/
theorem mem_vibCards_priority (st : Option Status) (r : Recommendation)
    (h : r ∈ vibCards st) : r.priority ≠ .low := by
  rcases st with _ | s
  · simp [vibCards] at h
  · cases s <;> simp [vibCards] at h <;> subst h <;> simp

/-- No speed card is low-priority. -/
theorem mem_speedCards_priority (st : Option Status) (r : Recommendation)
    (h : r ∈ speedCards st) : r.priority ≠ .low := by
  rcases st with _ | s
  · simp [speedCards] at h
  · cases s <;> simp [speedCards] at h <;> subst h <;> simp

/-- No trend card is low-priority. -/
theorem mem_trendCards_priority (tr : Param → Option TrendResult) (r : Recommendation)
    (h : r ∈ trendCards tr) : r.priority ≠ .low := by
  simp only [trendCards, List.mem_flatMap] at h
  obtain ⟨p, _, hr⟩ := h
  rcases htr : tr p with _ | t
  · rw [htr] at hr
    simp at hr
  · rw [htr] at hr
    dsimp only at hr
    split_ifs at hr with hc
    · simp only [List.mem_singleton] at hr
      subst hr
      simp
    · simp at hr

/-- Evaluation helper: temperature state on the C10 input. -/
theorem c10_state_temp : extractCurrentState c10Sd .temperature
    = some { current := 86, recent_avg := 86, recent_max := 86, recent_min := 86,
             status := .high } := by
  norm_num [extractCurrentState, c10Sd, mean, lastN, listMax, listMin, ratMax, ratMin,
    statusOf, thresholds]
  exact fun h => absurd h (by simp)

/-- Evaluation helper: temperature trend on the C10 input. -/
theorem c10_trend_temp : analyzeTrends c10Sd .temperature
    = some { direction := .stable, strength := 0, slope := some 0 } := by
  norm_num [analyzeTrends, c10Sd, lastN, leastSquaresSlope, ratAbs, List.range_succ]

/-- Evaluation helper: risk assessment on the C10 input (a single high-band
parameter: 20 points, level low). -/
theorem c10_risk : (analyze c10Sd mlNone).risk_assessment
    = { level := .low, score := 20 } := by
  have hmi : interpretMlOutputs mlNone (extractCurrentState c10Sd) = miNone := by decide
  have han : detectAnomalies c10Sd = [] := by decide
  have hcsV : extractCurrentState c10Sd .vibration = none := by decide
  have hcsS : extractCurrentState c10Sd .speed = none := by decide
  have htrV : analyzeTrends c10Sd .vibration
      = some { direction := .unknown, strength := 0, slope := none } := by decide
  have htrS : analyzeTrends c10Sd .speed
      = some { direction := .unknown, strength := 0, slope := none } := by decide
  show assessRisk _ _ _ _ = _
  rw [hmi, han]
  simp only [assessRisk, stateScore, trendScore, params, List.map_cons, List.map_nil,
    List.sum_cons, List.sum_nil, c10_state_temp, hcsV, hcsS, c10_trend_temp, htrV, htrS,
    stateContribution, trendContribution, rfScore, isoScore, anomalyScore, miNone,
    riskLevelOf, intMin]
  norm_num

/-- C10.  The low-priority routine-maintenance card appears in the
recommendation list exactly when the overall risk level is `normal` or
`low`; in particular a single high-band parameter (temperature 86) yields
score 20, level `low`, and a list containing both the high-priority
temperature card and the routine card. -/
theorem routine_card_iff_low_risk :
    (∀ risk cs tr, routineCard ∈ generateRecommendations risk cs tr
      ↔ (risk.level = .normal ∨ risk.level = .low))
    ∧ (analyze c10Sd mlNone).risk_assessment = { level := .low, score := 20 }
    ∧ (analyze c10Sd mlNone).recommendations =
        [{ priority := .high, action := "High Temperature - Preventive Action Required" },
         routineCard] := by
  refine ⟨fun risk cs tr => ⟨?_, ?_⟩, c10_risk, ?_⟩
  · intro h
    by_contra hno
    rw [generateRecommendations, if_neg hno, List.append_nil] at h
    simp only [List.mem_append] at h
    rcases h with (((h | h) | h) | h) | h
    · split_ifs at h with hc
      · simp [routineCard, emergencyCard] at h
      · simp at h
    · exact (mem_tempCards_priority _ _ h) rfl
    · exact (mem_vibCards_priority _ _ h) rfl
    · exact (mem_speedCards_priority _ _ h) rfl
    · exact (mem_trendCards_priority _ _ h) rfl
  · intro h
    rw [generateRecommendations, if_pos h]
    exact List.mem_append_right _ (List.mem_singleton.mpr rfl)
  · have hcsV : extractCurrentState c10Sd .vibration = none := by decide
    have hcsS : extractCurrentState c10Sd .speed = none := by decide
    have htrV : analyzeTrends c10Sd .vibration
        = some { direction := .unknown, strength := 0, slope := none } := by decide
    have htrS : analyzeTrends c10Sd .speed
        = some { direction := .unknown, strength := 0, slope := none } := by decide
    show generateRecommendations _ _ _ = _
    rw [show assessRisk (extractCurrentState c10Sd) (analyzeTrends c10Sd)
        (interpretMlOutputs mlNone (extractCurrentState c10Sd)) (detectAnomalies c10Sd)
        = ⟨.low, 20⟩ from c10_risk]
    simp only [generateRecommendations, c10_state_temp, hcsV, hcsS, trendCards, params,
      c10_trend_temp, htrV, htrS, List.flatMap_cons, List.flatMap_nil, tempCards,
      vibCards, speedCards, Option.map_some]
    decide

/-- Witness for C10: the routine card is present at a low-risk input. -/
theorem routine_card_iff_low_risk_witness :
    routineCard ∈ generateRecommendations ⟨.low, 20⟩ csNone trNone :=
  (routine_card_iff_low_risk.1 ⟨.low, 20⟩ csNone trNone).mpr (Or.inr rfl)

end MachineHealth
